import Mathlib

/-!
Verification of the Pacific Aid Map dashboard's data pipeline
(`pacific_aid_map.py`): a shallow embedding of the load / filter /
group-sum / pivot / sort / truncate transformations of the script,
together with theorems settling the specification's claims about them.

Modelling conventions:
* a pandas cell that may hold `NaN`/`NaT` is an `Option`;
* monetary values (`usd constant - transaction value`) are `ℚ`;
* `groupby` drops rows whose group key is missing (pandas `dropna=True`)
  and emits group keys in ascending sorted order (pandas `sort=True`);
* `sort_values` is modelled as `List.insertionSort`; the script's
  `sort_values` defaults to a non-stable quicksort, so theorems assert
  only sort-kind-invariant facts about the sorted tables (permutation
  of the grouped sums, descending value column, entry values);
* `astype(int)` on a float column truncates toward zero (`Int.tdiv`);
* `pd.to_datetime(_, unit="D", origin="1899-12-30")` is days-offset
  arithmetic on a proleptic Gregorian calendar (`civilFromDays`).
-/

/-- A calendar date (proleptic Gregorian), as produced by the date
conversions in `load_data`. -/
structure Date where
  year : Int
  month : Int
  day : Int
deriving DecidableEq, Repr

/-- Number of days from the civil date `y-m-d` to 1970-01-01 (negated:
days since the Unix epoch), standard days-from-civil algorithm with
floor division (`Int./` is floor division for positive divisors). -/
def daysFromCivil (y m d : Int) : Int :=
  let y' := if m ≤ 2 then y - 1 else y
  let era := y' / 400
  let yoe := y' - era * 400
  let mp := (m + 9) % 12
  let doy := (153 * mp + 2) / 5 + d - 1
  let doe := yoe * 365 + yoe / 4 - yoe / 100 + doy
  era * 146097 + doe - 719468

/-- The civil date lying `z` days after the Unix epoch 1970-01-01
(standard civil-from-days algorithm, inverse of `daysFromCivil`). -/
def civilFromDays (z : Int) : Date :=
  let z' := z + 719468
  let era := z' / 146097
  let doe := z' % 146097
  let yoe := (doe - doe / 1460 + doe / 36524 - doe / 146096) / 365
  let y := yoe + era * 400
  let doy := doe - (365 * yoe + yoe / 4 - yoe / 100)
  let mp := (5 * doy + 2) / 153
  let d := doy - (153 * mp + 2) / 5 + 1
  let m := if mp < 10 then mp + 3 else mp - 9
  { year := if m ≤ 2 then y + 1 else y, month := m, day := d }

/-- The day offset of the spreadsheet serial-date origin used in
`load_data`: `pd.to_datetime(_, unit="D", origin="1899-12-30")`. -/
def excelOriginDays : Int := daysFromCivil 1899 12 30

/-- Conversion of a spreadsheet serial-date value to a calendar date, as
performed by `load_data` on the three `DATE_COLUMNS`: the serial value
counts days from the origin 1899-12-30. -/
def excelSerialToDate (serial : Int) : Date :=
  civilFromDays (excelOriginDays + serial)

/-- One row of the normalized transaction table produced by `load_data`,
restricted to the columns the script reads.  Cells that can be missing
(`NaN` in pandas) are `Option`s; the two project date columns and the
final transaction date have already been converted to calendar dates
(`NaT` becomes `none`). -/
structure Row where
  spentCommitted : Option String
  donor : Option String
  recipient : Option String
  lowySector : Option String
  flowType : Option String
  projectTitle : Option String
  expectedstartdate : Option Date
  completiondate : Option Date
  finalTransactionDate : Option Date
  usdConstantTransactionValue : ℚ
deriving DecidableEq, Repr

/-- The sidebar filter state: one transaction type (radio button, always
set), four multiselects (empty list = no restriction, matching the
falsy-list test in the script), and the year-range slider. -/
structure FilterSpec where
  transactionType : String
  donors : List String
  recipients : List String
  sectors : List String
  aidTypes : List String
  yearLo : Int
  yearHi : Int
deriving DecidableEq, Repr

/-- The transaction-type filter:
`filtered_data["spent/committed"] == selected_transaction_type`
(a missing cell never equals a string in pandas). -/
def passesTransactionType (s : FilterSpec) (r : Row) : Bool :=
  decide (r.spentCommitted = some s.transactionType)

/-- One multiselect filter: skipped when the selection is empty (the
script guards each `isin` with `if selected_…:`); otherwise the row
passes iff its cell is present and a member of the selection
(`NaN.isin([...])` is false in pandas). -/
def passesMultiselect (selection : List String) (cell : Option String) : Bool :=
  selection.isEmpty ||
    (match cell with
     | some v => selection.contains v
     | none => false)

/-- The year-range filter:
`year(final transaction date) ∈ [lo, hi]`; a missing date (`NaT`) makes
both pandas comparisons false, so the row fails. -/
def passesYearRange (s : FilterSpec) (r : Row) : Bool :=
  match r.finalTransactionDate with
  | some d => decide (s.yearLo ≤ d.year) && decide (d.year ≤ s.yearHi)
  | none => false

/-- Conjunction of all sidebar filters, in the order the script applies
them. -/
def rowPasses (s : FilterSpec) (r : Row) : Bool :=
  passesTransactionType s r &&
  passesMultiselect s.donors r.donor &&
  passesMultiselect s.recipients r.recipient &&
  passesMultiselect s.sectors r.lowySector &&
  passesMultiselect s.aidTypes r.flowType &&
  passesYearRange s r

/-- The `filtered_data` view: successive boolean-mask filters of the
normalized table, which keep the surviving rows in original order. -/
def filtered_data (data : List Row) (s : FilterSpec) : List Row :=
  data.filter (rowPasses s)

/-- C3: the spreadsheet-serial-date conversion used on the serial-date
columns maps serial 0 to 1899-12-30 and serial 1 to 1899-12-31 (the
classic Excel/Lotus epoch, not shifted by one day). -/
theorem excelSerialToDate_epoch :
    excelSerialToDate 0 = { year := 1899, month := 12, day := 30 } ∧
    excelSerialToDate 1 = { year := 1899, month := 12, day := 31 } := by
  constructor <;> rfl

/-- C5: a row passes the year-range filter iff its final transaction
date is present with year in `[yearLo, yearHi]` inclusive; a row with a
missing final transaction date fails it and hence belongs to no
filtered view. -/
theorem passesYearRange_iff (s : FilterSpec) (r : Row) :
    (passesYearRange s r = true ↔
      ∃ d, r.finalTransactionDate = some d ∧
        s.yearLo ≤ d.year ∧ d.year ≤ s.yearHi) ∧
    (r.finalTransactionDate = none →
      ∀ data : List Row, r ∉ filtered_data data s) := by
  constructor
  · unfold passesYearRange
    cases h : r.finalTransactionDate with
    | none => simp
    | some d => simp [h]
  · intro hnone data hmem
    have hp := List.of_mem_filter hmem
    have : passesYearRange s r = true := by
      simp only [rowPasses, Bool.and_eq_true] at hp
      exact hp.2
    rw [passesYearRange, hnone] at this
    exact Bool.false_ne_true this

/-- A sample row whose final transaction date failed to parse. -/
def noDateRow : Row :=
  { spentCommitted := some "Spent", donor := some "Australia",
    recipient := some "Fiji", lowySector := some "Health",
    flowType := some "Grant", projectTitle := some "P",
    expectedstartdate := none, completiondate := none,
    finalTransactionDate := none,
    usdConstantTransactionValue := 5 }

/-- A filter specification with no multiselect restriction. -/
def openSpec : FilterSpec :=
  { transactionType := "Spent", donors := [], recipients := [],
    sectors := [], aidTypes := [], yearLo := 2008, yearHi := 2021 }

/-- Witness for C5 at a concrete row with no final transaction date. -/
theorem passesYearRange_iff_witness :
    noDateRow ∉ filtered_data [noDateRow] openSpec :=
  (passesYearRange_iff openSpec noDateRow).2 rfl _

/-- Sum of the `usd constant - transaction value` column over a list of
rows (pandas `.sum()` on the value column). -/
def valueSum (l : List Row) : ℚ :=
  (l.map Row.usdConstantTransactionValue).sum

/-- The rows of `l` belonging to group key `k` under the keying function
`key` (a pandas group; rows whose key is missing belong to no group,
matching `groupby(dropna=True)`). -/
def groupRows {κ : Type} [DecidableEq κ] (key : Row → Option κ)
    (k : κ) (l : List Row) : List Row :=
  l.filter (fun r => decide (key r = some k))

/-- The distinct group keys observed in `l`, in ascending `rel` order
(pandas `groupby(sort=True)` emits group keys sorted). -/
def observedKeys {κ : Type} [DecidableEq κ] (rel : κ → κ → Prop)
    [DecidableRel rel] (key : Row → Option κ) (l : List Row) : List κ :=
  List.insertionSort rel (l.filterMap key).dedup

/-- A pandas `groupby(...)[value].sum()`: one `(key, sum)` pair per
observed group key, keys ascending, rows with a missing key dropped. -/
def groupedSum {κ : Type} [DecidableEq κ] (rel : κ → κ → Prop)
    [DecidableRel rel] (key : Row → Option κ) (l : List Row) :
    List (κ × ℚ) :=
  (observedKeys rel key l).map (fun k => (k, valueSum (groupRows key k l)))

theorem valueSum_nil : valueSum [] = 0 := rfl

theorem valueSum_cons (r : Row) (l : List Row) :
    valueSum (r :: l) = r.usdConstantTransactionValue + valueSum l := rfl

theorem sum_map_ite_single {κ : Type} [DecidableEq κ] {ks : List κ}
    (hnd : ks.Nodup) {k0 : κ} (hk : k0 ∈ ks) (c : ℚ) :
    (ks.map (fun k => if k0 = k then c else 0)).sum = c := by
  induction ks with
  | nil => cases hk
  | cons k t ih =>
    rcases List.mem_cons.mp hk with hk0 | hk0
    · subst hk0
      have hnot : k0 ∉ t := (List.nodup_cons.mp hnd).1
      have hz : (t.map (fun k => if k0 = k then c else 0)).sum = 0 := by
        apply List.sum_eq_zero
        intro x hx
        rcases List.mem_map.mp hx with ⟨k, hkmem, hkx⟩
        have : k0 ≠ k := fun h => hnot (h ▸ hkmem)
        simp [this] at hkx
        exact hkx.symm
      simp [hz]
    · have hne : k0 ≠ k := by
        intro h
        exact (List.nodup_cons.mp hnd).1 (h ▸ hk0)
      simp only [List.map_cons, List.sum_cons, if_neg hne, zero_add]
      exact ih (List.nodup_cons.mp hnd).2 hk0

theorem groups_valueSum {κ : Type} [DecidableEq κ] (key : Row → Option κ)
    (ks : List κ) (hnd : ks.Nodup) (l : List Row)
    (hcov : ∀ r ∈ l, ∀ k, key r = some k → k ∈ ks) :
    (ks.map (fun k => valueSum (groupRows key k l))).sum
      = valueSum (l.filter (fun r => (key r).isSome)) := by
  induction l with
  | nil => simp [groupRows, valueSum]
  | cons r t ih =>
    have hcovt : ∀ r ∈ t, ∀ k, key r = some k → k ∈ ks :=
      fun x hx => hcov x (List.mem_cons_of_mem r hx)
    have hsplit : ∀ k, valueSum (groupRows key k (r :: t))
        = (if key r = some k then r.usdConstantTransactionValue else 0)
          + valueSum (groupRows key k t) := by
      intro k
      by_cases h : key r = some k
      · simp [groupRows, List.filter_cons, h, valueSum_cons]
      · simp [groupRows, List.filter_cons, h]
    calc (ks.map (fun k => valueSum (groupRows key k (r :: t)))).sum
        = (ks.map (fun k =>
            (if key r = some k then r.usdConstantTransactionValue else 0)
              + valueSum (groupRows key k t))).sum := by
          apply congrArg List.sum
          exact List.map_congr_left (fun k _ => hsplit k)
      _ = (ks.map (fun k =>
            if key r = some k then r.usdConstantTransactionValue else 0)).sum
          + (ks.map (fun k => valueSum (groupRows key k t))).sum :=
          List.sum_map_add
      _ = valueSum ((r :: t).filter (fun r => (key r).isSome)) := by
          rw [ih hcovt]
          cases hkey : key r with
          | none =>
            have hz : (ks.map (fun k =>
                if key r = some k then r.usdConstantTransactionValue else 0)).sum
                = 0 := by
              apply List.sum_eq_zero
              intro x hx
              rcases List.mem_map.mp hx with ⟨k, _, hkx⟩
              simp [hkey] at hkx
              exact hkx.symm
            simp [hz, List.filter_cons, hkey]
          | some k0 =>
            have hmem : k0 ∈ ks := hcov r (List.mem_cons_self r t) k0 hkey
            have hone : (ks.map (fun k =>
                if k0 = k then r.usdConstantTransactionValue else 0)).sum
                = r.usdConstantTransactionValue :=
              sum_map_ite_single hnd hmem _
            simp only [Option.some.injEq]
            rw [hone]
            simp [List.filter_cons, hkey, valueSum_cons]

theorem observedKeys_perm {κ : Type} [DecidableEq κ] (rel : κ → κ → Prop)
    [DecidableRel rel] (key : Row → Option κ) (l : List Row) :
    (observedKeys rel key l).Perm (l.filterMap key).dedup :=
  List.perm_insertionSort rel _

theorem observedKeys_nodup {κ : Type} [DecidableEq κ] (rel : κ → κ → Prop)
    [DecidableRel rel] (key : Row → Option κ) (l : List Row) :
    (observedKeys rel key l).Nodup :=
  ((observedKeys_perm rel key l).nodup_iff).mpr (List.nodup_dedup _)

theorem mem_observedKeys {κ : Type} [DecidableEq κ] (rel : κ → κ → Prop)
    [DecidableRel rel] (key : Row → Option κ) (l : List Row) (k : κ) :
    k ∈ observedKeys rel key l ↔ ∃ r ∈ l, key r = some k := by
  rw [(observedKeys_perm rel key l).mem_iff, List.mem_dedup,
    List.mem_filterMap]

/-- The grand total of a grouped sum equals the value sum of the rows
whose group key is present (rows with a missing key are dropped by
`groupby`). -/
theorem groupedSum_total {κ : Type} [DecidableEq κ] (rel : κ → κ → Prop)
    [DecidableRel rel] (key : Row → Option κ) (l : List Row) :
    ((groupedSum rel key l).map Prod.snd).sum
      = valueSum (l.filter (fun r => (key r).isSome)) := by
  rw [groupedSum, List.map_map]
  have hperm : ((observedKeys rel key l).map
        ((Prod.snd ∘ fun k => (k, valueSum (groupRows key k l))))).Perm
      ((l.filterMap key).dedup.map
        (fun k => valueSum (groupRows key k l))) :=
    (observedKeys_perm rel key l).map _
  rw [hperm.sum_eq]
  apply groups_valueSum key _ (List.nodup_dedup _)
  intro r hr k hk
  rw [List.mem_dedup, List.mem_filterMap]
  exact ⟨r, hr, hk⟩

theorem mem_groupedSum {κ : Type} [DecidableEq κ] {rel : κ → κ → Prop}
    [DecidableRel rel] {key : Row → Option κ} {l : List Row}
    {p : κ × ℚ} (hp : p ∈ groupedSum rel key l) :
    p.2 = valueSum (groupRows key p.1 l) ∧ ∃ r ∈ l, key r = some p.1 := by
  rcases List.mem_map.mp hp with ⟨k, hk, hpk⟩
  subst hpk
  exact ⟨rfl, (mem_observedKeys rel key l k).mp hk⟩

theorem groupedSum_keys {κ : Type} [DecidableEq κ] (rel : κ → κ → Prop)
    [DecidableRel rel] (key : Row → Option κ) (l : List Row) (k : κ) :
    k ∈ (groupedSum rel key l).map Prod.fst ↔ ∃ r ∈ l, key r = some k := by
  rw [groupedSum, List.map_map]
  have : (Prod.fst ∘ fun k => (k, valueSum (groupRows key k l))) = id := rfl
  rw [this, List.map_id]
  exact mem_observedKeys rel key l k

/-- Rows surviving the filter pipeline always carry a final transaction
date (the year-range filter discards the rest). -/
theorem mem_filtered_date_isSome {data : List Row} {s : FilterSpec}
    {r : Row} (hr : r ∈ filtered_data data s) :
    r.finalTransactionDate.isSome = true := by
  have hp := List.of_mem_filter hr
  simp only [rowPasses, Bool.and_eq_true] at hp
  have hy := hp.2
  rw [passesYearRange] at hy
  cases h : r.finalTransactionDate with
  | none => rw [h] at hy; exact absurd hy Bool.false_ne_true
  | some d => rfl

/-- Lexicographic comparison of character lists by code point, the
order in which pandas sorts string group keys (Python compares strings
code point by code point). -/
def chLe : List Char → List Char → Bool
  | [], _ => true
  | _ :: _, [] => false
  | a :: as, b :: bs =>
    if a.toNat < b.toNat then true
    else if b.toNat < a.toNat then false
    else chLe as bs

/-- Strict lexicographic comparison of character lists by code point. -/
def chLt : List Char → List Char → Bool
  | [], [] => false
  | [], _ :: _ => true
  | _ :: _, [] => false
  | a :: as, b :: bs =>
    if a.toNat < b.toNat then true
    else if b.toNat < a.toNat then false
    else chLt as bs

/-- Code-point order on strings (how pandas sorts string group keys). -/
def strLe (a b : String) : Prop := chLe a.data b.data = true

/-- Strict code-point order on strings. -/
def strLt (a b : String) : Prop := chLt a.data b.data = true

instance : DecidableRel strLe := fun a b =>
  inferInstanceAs (Decidable (chLe a.data b.data = true))

instance : DecidableRel strLt := fun a b =>
  inferInstanceAs (Decidable (chLt a.data b.data = true))

theorem chLe_total : ∀ a b : List Char, chLe a b = true ∨ chLe b a = true
  | [], _ => Or.inl rfl
  | _ :: _, [] => Or.inr rfl
  | a :: as, b :: bs => by
    by_cases h1 : a.toNat < b.toNat
    · left
      simp [chLe, h1]
    · by_cases h2 : b.toNat < a.toNat
      · right
        simp [chLe, h2]
      · rcases chLe_total as bs with h | h
        · left
          simpa [chLe, h1, h2] using h
        · right
          simpa [chLe, h1, h2] using h

theorem chLe_trans : ∀ a b c : List Char,
    chLe a b = true → chLe b c = true → chLe a c = true
  | [], _, _ => fun _ _ => rfl
  | _ :: _, [], _ => fun h _ => Bool.noConfusion h
  | _ :: _, _ :: _, [] => fun _ h => Bool.noConfusion h
  | a :: as, b :: bs, c :: cs => fun hab hbc => by
    rw [chLe] at hab hbc ⊢
    by_cases hab1 : a.toNat < b.toNat
    · by_cases hbc1 : b.toNat < c.toNat
      · have : a.toNat < c.toNat := lt_trans hab1 hbc1
        simp [this]
      · by_cases hbc2 : c.toNat < b.toNat
        · simp [hbc1, hbc2] at hbc
        · have hbceq : b.toNat = c.toNat := le_antisymm
            (le_of_not_lt hbc2) (le_of_not_lt hbc1)
          have : a.toNat < c.toNat := hbceq ▸ hab1
          simp [this]
    · by_cases hab2 : b.toNat < a.toNat
      · simp [hab1, hab2] at hab
      · have habeq : a.toNat = b.toNat := le_antisymm
          (le_of_not_lt hab2) (le_of_not_lt hab1)
        by_cases hbc1 : b.toNat < c.toNat
        · have : a.toNat < c.toNat := habeq ▸ hbc1
          simp [this]
        · by_cases hbc2 : c.toNat < b.toNat
          · simp [hbc1, hbc2] at hbc
          · have h1 : ¬ a.toNat < c.toNat := habeq ▸ hbc1
            have h2 : ¬ c.toNat < a.toNat := habeq ▸ hbc2
            simp only [h1, h2, if_false]
            simp only [hab1, hab2, if_false] at hab
            simp only [hbc1, hbc2, if_false] at hbc
            exact chLe_trans as bs cs hab hbc

theorem chLe_antisymm : ∀ a b : List Char,
    chLe a b = true → chLe b a = true → a = b
  | [], [] => fun _ _ => rfl
  | [], _ :: _ => fun _ h => Bool.noConfusion h
  | _ :: _, [] => fun h _ => Bool.noConfusion h
  | a :: as, b :: bs => fun hab hba => by
    rw [chLe] at hab hba
    by_cases h1 : a.toNat < b.toNat
    · have h2 : ¬ b.toNat < a.toNat := lt_asymm h1
      simp [h1, h2] at hba
    · by_cases h2 : b.toNat < a.toNat
      · simp [h1, h2] at hab
      · have heq : a.toNat = b.toNat := le_antisymm
          (le_of_not_lt h2) (le_of_not_lt h1)
        have hch : a = b := Char.ext (UInt32.ext heq)
        simp only [h1, h2, if_false] at hab hba
        rw [hch, chLe_antisymm as bs hab hba]

instance : IsTotal String strLe := ⟨fun a b => chLe_total a.data b.data⟩

instance : IsTrans String strLe :=
  ⟨fun a b c hab hbc => chLe_trans a.data b.data c.data hab hbc⟩

theorem strLe_antisymm {a b : String} (hab : strLe a b) (hba : strLe b a) :
    a = b :=
  String.ext (chLe_antisymm a.data b.data hab hba)

/-- Composite group key of the yearly-by-aid-type chart:
`groupby([final transaction date year, "flow type"])`; missing in either
component means the row is dropped by `groupby`. -/
def yearFlowKey (r : Row) : Option (Int × String) :=
  match r.finalTransactionDate, r.flowType with
  | some d, some f => some (d.year, f)
  | _, _ => none

/-- Composite group key of the yearly-by-sector chart:
`groupby([final transaction date year, "lowy sector"])`. -/
def yearSectorKey (r : Row) : Option (Int × String) :=
  match r.finalTransactionDate, r.lowySector with
  | some d, some s => some (d.year, s)
  | _, _ => none

/-- Lexicographic order on (year, category) keys, the order in which
pandas emits composite group keys. -/
def yearCatLe (a b : Int × String) : Prop :=
  a.1 < b.1 ∨ (a.1 = b.1 ∧ strLe a.2 b.2)

instance : DecidableRel yearCatLe := fun a b => by
  unfold yearCatLe
  infer_instance

/-- Lexicographic order on (project title, donor, recipient) keys. -/
def key3Le (a b : String × String × String) : Prop :=
  strLt a.1 b.1 ∨ (a.1 = b.1 ∧
    (strLt a.2.1 b.2.1 ∨ (a.2.1 = b.2.1 ∧ strLe a.2.2 b.2.2)))

instance : DecidableRel key3Le := fun a b => by
  unfold key3Le
  infer_instance

/-- Descending order on the summed-value component, the relation behind
every `sort_values(by=["Value"], ascending=False)` in the script. -/
def valueDescRel {κ : Type} (a b : κ × ℚ) : Prop := b.2 ≤ a.2

instance {κ : Type} : DecidableRel (valueDescRel (κ := κ)) := fun a b =>
  inferInstanceAs (Decidable (b.2 ≤ a.2))

instance {κ : Type} : IsTotal (κ × ℚ) valueDescRel :=
  ⟨fun a b => (le_total b.2 a.2).imp (fun h => h) (fun h => h)⟩

instance {κ : Type} : IsTrans (κ × ℚ) valueDescRel :=
  ⟨fun _ _ _ hab hbc => le_trans hbc hab⟩

/-- The long-form `grouped_data` of the yearly-by-aid-type chart. -/
def grouped_year_flow (l : List Row) : List ((Int × String) × ℚ) :=
  groupedSum yearCatLe yearFlowKey l

/-- The long-form `grouped_data` of the yearly-by-sector chart. -/
def grouped_year_sector (l : List Row) : List ((Int × String) × ℚ) :=
  groupedSum yearCatLe yearSectorKey l

/-- The row index of `pivot_data`: the distinct years occurring in the
grouped long form, ascending. -/
def pivotYears (g : List ((Int × String) × ℚ)) : List Int :=
  List.insertionSort (fun a b => a ≤ b) (g.map (fun p => p.1.1)).dedup

/-- The column index of `pivot_data`: the distinct categories occurring
in the grouped long form, ascending. -/
def pivotCats (g : List ((Int × String) × ℚ)) : List String :=
  List.insertionSort strLe (g.map (fun p => p.1.2)).dedup

/-- One cell of `pivot_data`: the grouped value at `(y, c)` when that
combination occurs in the long form, else the `fillna(0)` default. -/
def pivotCell (g : List ((Int × String) × ℚ)) (y : Int) (c : String) : ℚ :=
  ((g.find? (fun p => decide (p.1 = (y, c)))).map Prod.snd).getD 0

/-- The zero-filled stacked form `pivot_data = grouped.pivot(...).fillna(0)`,
flattened to one entry per (year, category) cell of the cross product. -/
def pivot_data (g : List ((Int × String) × ℚ)) : List ((Int × String) × ℚ) :=
  (pivotYears g).flatMap (fun y =>
    (pivotCats g).map (fun c => ((y, c), pivotCell g y c)))

/-- The sector pie-chart data: `groupby("lowy sector")[value].sum()`. -/
def sector_total (l : List Row) : List (String × ℚ) :=
  groupedSum strLe (fun r => r.lowySector) l

/-- Truncation toward zero, the semantics of `astype(int)` on a float
column (C casts truncate the fractional part toward zero). -/
def truncRat (q : ℚ) : Int := q.num.tdiv q.den

/-- The donor `grouped_data`: `groupby("donor")[value].sum()`. -/
def donor_grouped (l : List Row) : List (String × ℚ) :=
  groupedSum strLe (fun r => r.donor) l

/-- The recipient `grouped_data`: `groupby("recipient")[value].sum()`. -/
def recipient_grouped (l : List Row) : List (String × ℚ) :=
  groupedSum strLe (fun r => r.recipient) l

/-- The donor table before `astype(int)`: the donor `grouped_data`
after `sort_values(by=["Value"], ascending=False)`.  The script's sort
is the default (non-stable) quicksort; `insertionSort` is one admissible
realization of it, and only properties independent of the tie order —
permutation, descending values, entry sums — are asserted about it. -/
def donor_total_q (l : List Row) : List (String × ℚ) :=
  List.insertionSort valueDescRel (donor_grouped l)

/-- The displayed donor table: value column truncated to int. -/
def donor_total (l : List Row) : List (String × Int) :=
  (donor_total_q l).map (fun p => (p.1, truncRat p.2))

/-- The recipient table before `astype(int)`: like the donor table,
sorted by the default non-stable quicksort, of which `insertionSort` is
one admissible realization; no tie-order property is asserted. -/
def recipient_total_q (l : List Row) : List (String × ℚ) :=
  List.insertionSort valueDescRel (recipient_grouped l)

/-- The displayed recipient table: value column truncated to int. -/
def recipient_total (l : List Row) : List (String × Int) :=
  (recipient_total_q l).map (fun p => (p.1, truncRat p.2))

/-- Composite project key used by the project table:
`groupby(["project title", "donor", "recipient"])`. -/
def projectKey (r : Row) : Option (String × String × String) :=
  match r.projectTitle, r.donor, r.recipient with
  | some t, some d, some c => some (t, d, c)
  | _, _, _ => none

/-- One aggregated project row, before the value sort and truncation. -/
structure ProjectRow where
  title : String
  donor : String
  recipient : String
  startYear : Option Int
  completionYear : Option Int
  value : ℚ
deriving DecidableEq, Repr

/-- Descending order on the project value, for the project table sort. -/
def projDescRel (a b : ProjectRow) : Prop := b.value ≤ a.value

instance : DecidableRel projDescRel := fun a b =>
  inferInstanceAs (Decidable (b.value ≤ a.value))

instance : IsTotal ProjectRow projDescRel :=
  ⟨fun a b => (le_total b.value a.value).imp (fun h => h) (fun h => h)⟩

instance : IsTrans ProjectRow projDescRel :=
  ⟨fun _ _ _ hab hbc => le_trans hbc hab⟩

/-- The aggregation of one project group: value summed; each date column
reduced via pandas `agg("first")`, which takes the first non-missing
value of the column within the group, then `.dt.year`. -/
def mkProjectRow (l : List Row) (k : String × String × String) : ProjectRow :=
  let g := groupRows projectKey k l
  { title := k.1, donor := k.2.1, recipient := k.2.2,
    startYear := ((g.filterMap Row.expectedstartdate).head?).map Date.year,
    completionYear := ((g.filterMap Row.completiondate).head?).map Date.year,
    value := valueSum g }

/-- The project table before `astype(int)`: grouped by the composite
key, aggregated, then descending stable value sort. -/
def project_rollup_q (l : List Row) : List ProjectRow :=
  List.insertionSort projDescRel
    ((observedKeys key3Le projectKey l).map (mkProjectRow l))

/-- The displayed project table: value column truncated to int. -/
def project_rollup (l : List Row) :
    List (String × String × String × Option Int × Option Int × Int) :=
  (project_rollup_q l).map (fun p =>
    (p.title, p.donor, p.recipient, p.startYear, p.completionYear,
      truncRat p.value))

theorem yearFlowKey_isSome {r : Row} (hd : r.finalTransactionDate.isSome = true)
    (hf : r.flowType.isSome = true) : (yearFlowKey r).isSome = true := by
  rcases Option.isSome_iff_exists.mp hd with ⟨d, hd'⟩
  rcases Option.isSome_iff_exists.mp hf with ⟨f, hf'⟩
  simp [yearFlowKey, hd', hf']

/-- The grand total of each aggregate of a view equals the value sum of
the rows of the view whose group key is fully present. -/
theorem grouped_year_flow_total (l : List Row) :
    ((grouped_year_flow l).map Prod.snd).sum
      = valueSum (l.filter (fun r => (yearFlowKey r).isSome)) :=
  groupedSum_total _ _ _

theorem sector_total_total (l : List Row) :
    ((sector_total l).map Prod.snd).sum
      = valueSum (l.filter (fun r => r.lowySector.isSome)) :=
  groupedSum_total _ _ _

theorem donor_grouped_total (l : List Row) :
    ((donor_grouped l).map Prod.snd).sum
      = valueSum (l.filter (fun r => r.donor.isSome)) :=
  groupedSum_total _ _ _

theorem recipient_grouped_total (l : List Row) :
    ((recipient_grouped l).map Prod.snd).sum
      = valueSum (l.filter (fun r => r.recipient.isSome)) :=
  groupedSum_total _ _ _

/-- C1 (amended): for a filtered view all of whose rows carry a flow
type, a sector and a donor, the three grand totals (yearly-by-flow-type,
sector, donor) agree — each aggregation then partitions the whole view.
Without that proviso a row with a missing key silently leaves the
corresponding aggregate (see the counterexample). -/
theorem grand_totals_eq (data : List Row) (s : FilterSpec)
    (h : ∀ r ∈ filtered_data data s,
      r.flowType.isSome = true ∧ r.lowySector.isSome = true ∧
        r.donor.isSome = true) :
    ((grouped_year_flow (filtered_data data s)).map Prod.snd).sum
      = ((sector_total (filtered_data data s)).map Prod.snd).sum ∧
    ((sector_total (filtered_data data s)).map Prod.snd).sum
      = ((donor_grouped (filtered_data data s)).map Prod.snd).sum := by
  have e1 : (filtered_data data s).filter (fun r => (yearFlowKey r).isSome)
      = filtered_data data s :=
    List.filter_eq_self.mpr (fun r hr =>
      yearFlowKey_isSome (mem_filtered_date_isSome hr) (h r hr).1)
  have e2 : (filtered_data data s).filter (fun r => r.lowySector.isSome)
      = filtered_data data s :=
    List.filter_eq_self.mpr (fun r hr => (h r hr).2.1)
  have e3 : (filtered_data data s).filter (fun r => r.donor.isSome)
      = filtered_data data s :=
    List.filter_eq_self.mpr (fun r hr => (h r hr).2.2)
  rw [grouped_year_flow_total, sector_total_total, donor_grouped_total,
    e1, e2, e3]
  exact ⟨rfl, rfl⟩

/-- A fully populated sample transaction row. -/
def fullRow : Row :=
  { spentCommitted := some "Spent", donor := some "Australia",
    recipient := some "Fiji", lowySector := some "Health",
    flowType := some "Grant", projectTitle := some "P",
    expectedstartdate := some { year := 2009, month := 1, day := 2 },
    completiondate := some { year := 2012, month := 5, day := 6 },
    finalTransactionDate := some { year := 2010, month := 6, day := 15 },
    usdConstantTransactionValue := 5 }

/-- A row that passes every filter but has no `lowy sector` value. -/
def noSectorRow : Row :=
  { spentCommitted := some "Spent", donor := some "Australia",
    recipient := some "Fiji", lowySector := none,
    flowType := some "Grant", projectTitle := some "P",
    expectedstartdate := some { year := 2009, month := 1, day := 2 },
    completiondate := some { year := 2012, month := 5, day := 6 },
    finalTransactionDate := some { year := 2010, month := 6, day := 15 },
    usdConstantTransactionValue := 5 }

/-- Counterexample to C1 as stated: a filtered view containing a row
with a missing sector has yearly-by-flow-type grand total 5 but sector
grand total 0 — the three aggregations are not all full partitions of
the filtered row set. -/
theorem grand_totals_eq_cex :
    ¬ (((grouped_year_flow (filtered_data [noSectorRow] openSpec)).map
          Prod.snd).sum
        = ((sector_total (filtered_data [noSectorRow] openSpec)).map
            Prod.snd).sum ∧
      ((sector_total (filtered_data [noSectorRow] openSpec)).map
          Prod.snd).sum
        = ((donor_grouped (filtered_data [noSectorRow] openSpec)).map
            Prod.snd).sum) := by
  intro h
  have h1 := h.1
  have hg : grouped_year_flow (filtered_data [noSectorRow] openSpec)
      = [(((2010 : Int), "Grant"), valueSum [noSectorRow])] := rfl
  have hs : sector_total (filtered_data [noSectorRow] openSpec) = [] := rfl
  have e1 : ((grouped_year_flow (filtered_data [noSectorRow] openSpec)).map
      Prod.snd).sum = 5 := by
    rw [hg]
    simp [valueSum, noSectorRow]
  have e2 : ((sector_total (filtered_data [noSectorRow] openSpec)).map
      Prod.snd).sum = 0 := by
    rw [hs]
    rfl
  rw [e1, e2] at h1
  exact absurd h1 (by norm_num)

/-- Witness for the amended C1 at a concrete one-row view with all keys
present. -/
theorem grand_totals_eq_witness :
    ((grouped_year_flow (filtered_data [fullRow] openSpec)).map
        Prod.snd).sum
      = ((sector_total (filtered_data [fullRow] openSpec)).map
          Prod.snd).sum ∧
    ((sector_total (filtered_data [fullRow] openSpec)).map Prod.snd).sum
      = ((donor_grouped (filtered_data [fullRow] openSpec)).map
          Prod.snd).sum :=
  grand_totals_eq [fullRow] openSpec (by decide)

/-- C9: a row whose group-key value is missing is silently excluded from
the corresponding single-level group-sum: the Sector/Donor/Recipient
totals produce groups only for present key values, their grand totals
cover exactly the rows whose key is present, and each group's value is
the sum over the rows matching that key alone — so a row missing one key
column still contributes fully to the aggregates keyed on its other,
present columns. -/
theorem missing_key_excluded (data : List Row) (s : FilterSpec) :
    (∀ k, k ∈ (sector_total (filtered_data data s)).map Prod.fst ↔
       ∃ r ∈ filtered_data data s, r.lowySector = some k) ∧
    (∀ k, k ∈ (donor_grouped (filtered_data data s)).map Prod.fst ↔
       ∃ r ∈ filtered_data data s, r.donor = some k) ∧
    (∀ k, k ∈ (recipient_grouped (filtered_data data s)).map Prod.fst ↔
       ∃ r ∈ filtered_data data s, r.recipient = some k) ∧
    ((sector_total (filtered_data data s)).map Prod.snd).sum
      = valueSum ((filtered_data data s).filter
          (fun r => r.lowySector.isSome)) ∧
    ((donor_grouped (filtered_data data s)).map Prod.snd).sum
      = valueSum ((filtered_data data s).filter
          (fun r => r.donor.isSome)) ∧
    ((recipient_grouped (filtered_data data s)).map Prod.snd).sum
      = valueSum ((filtered_data data s).filter
          (fun r => r.recipient.isSome)) ∧
    (∀ p ∈ sector_total (filtered_data data s),
       p.2 = valueSum (groupRows (fun r => r.lowySector) p.1
          (filtered_data data s))) ∧
    (∀ p ∈ donor_grouped (filtered_data data s),
       p.2 = valueSum (groupRows (fun r => r.donor) p.1
          (filtered_data data s))) ∧
    (∀ p ∈ recipient_grouped (filtered_data data s),
       p.2 = valueSum (groupRows (fun r => r.recipient) p.1
          (filtered_data data s))) := by
  refine ⟨fun k => groupedSum_keys _ _ _ k, fun k => groupedSum_keys _ _ _ k,
    fun k => groupedSum_keys _ _ _ k, groupedSum_total _ _ _,
    groupedSum_total _ _ _, groupedSum_total _ _ _,
    fun p hp => (mem_groupedSum hp).1, fun p hp => (mem_groupedSum hp).1,
    fun p hp => (mem_groupedSum hp).1⟩

/-- Witness for C9: in the one-row view whose row has no sector, the
donor aggregate still has the donor group while the sector aggregate has
no group at all. -/
theorem missing_key_excluded_witness :
    "Australia" ∈ (donor_grouped
        (filtered_data [noSectorRow] openSpec)).map Prod.fst ∧
    ¬ "Health" ∈ (sector_total
        (filtered_data [noSectorRow] openSpec)).map Prod.fst :=
  ⟨((missing_key_excluded [noSectorRow] openSpec).2.1 "Australia").mpr
      ⟨noSectorRow, by decide, rfl⟩,
    fun h => by
      rcases ((missing_key_excluded [noSectorRow] openSpec).1 "Health").mp h
        with ⟨r, hr, hsec⟩
      have : r = noSectorRow := by
        have := List.mem_filter.mp hr
        simpa using this.1
      rw [this] at hsec
      exact Option.noConfusion hsec⟩

theorem pivot_data_length (g : List ((Int × String) × ℚ)) :
    (pivot_data g).length = (pivotYears g).length * (pivotCats g).length := by
  rw [pivot_data, List.length_flatMap]
  have : (List.map (List.length ∘ fun y =>
      (pivotCats g).map (fun c => ((y, c), pivotCell g y c)))
        (pivotYears g))
      = List.map (Function.const Int (pivotCats g).length) (pivotYears g) := by
    apply List.map_congr_left
    intro y _
    simp
  rw [this, List.map_const, List.sum_replicate, smul_eq_mul]

theorem pivotCell_of_not_observed
    {rel : (Int × String) → (Int × String) → Prop} [DecidableRel rel]
    {key : Row → Option (Int × String)} {l : List Row} {y : Int}
    {c : String} (h : ∀ r ∈ l, key r ≠ some (y, c)) :
    pivotCell (groupedSum rel key l) y c = 0 := by
  rw [pivotCell]
  cases hf : (groupedSum rel key l).find?
      (fun q => decide (q.1 = (y, c))) with
  | none => rfl
  | some q =>
    have hm := List.mem_of_find?_eq_some hf
    have hb := List.find?_some hf
    have hk : q.1 = (y, c) := by simpa using hb
    rcases (mem_groupedSum hm).2 with ⟨r, hr, hkey⟩
    rw [hk] at hkey
    exact absurd hkey (h r hr)

theorem mem_pivotYears {rel : (Int × String) → (Int × String) → Prop}
    [DecidableRel rel] {key : Row → Option (Int × String)} {l : List Row}
    {y : Int} :
    y ∈ pivotYears (groupedSum rel key l) ↔
      ∃ r ∈ l, ∃ c, key r = some (y, c) := by
  rw [pivotYears, (List.perm_insertionSort _ _).mem_iff, List.mem_dedup,
    List.mem_map]
  constructor
  · rintro ⟨p, hp, hy⟩
    rcases (mem_groupedSum hp).2 with ⟨r, hr, hkey⟩
    exact ⟨r, hr, p.1.2, by rw [hkey, ← hy]⟩
  · rintro ⟨r, hr, c, hkey⟩
    have : (y, c) ∈ (groupedSum rel key l).map Prod.fst :=
      (groupedSum_keys rel key l (y, c)).mpr ⟨r, hr, hkey⟩
    rcases List.mem_map.mp this with ⟨p, hp, hfst⟩
    exact ⟨p, hp, by rw [hfst]⟩

theorem mem_pivotCats {rel : (Int × String) → (Int × String) → Prop}
    [DecidableRel rel] {key : Row → Option (Int × String)} {l : List Row}
    {c : String} :
    c ∈ pivotCats (groupedSum rel key l) ↔
      ∃ r ∈ l, ∃ y, key r = some (y, c) := by
  rw [pivotCats, (List.perm_insertionSort _ _).mem_iff, List.mem_dedup,
    List.mem_map]
  constructor
  · rintro ⟨p, hp, hc⟩
    rcases (mem_groupedSum hp).2 with ⟨r, hr, hkey⟩
    exact ⟨r, hr, p.1.1, by rw [hkey, ← hc]⟩
  · rintro ⟨r, hr, y, hkey⟩
    have : (y, c) ∈ (groupedSum rel key l).map Prod.fst :=
      (groupedSum_keys rel key l (y, c)).mpr ⟨r, hr, hkey⟩
    rcases List.mem_map.mp this with ⟨p, hp, hfst⟩
    exact ⟨p, hp, by rw [hfst]⟩

/-- C2: for every filtered view, each stacked-form pivot (yearly by flow
type, yearly by sector) has exactly `|observed years| * |observed
categories|` entries — where the observed years/categories are exactly
those contributed by rows of the view (iff clauses) — and every cell
whose (year, category) combination occurs on no row of the view holds
exactly 0 (the `fillna(0)` default). -/
theorem pivot_zero_fill (data : List Row) (s : FilterSpec) :
    ((pivot_data (grouped_year_flow (filtered_data data s))).length
        = (pivotYears (grouped_year_flow (filtered_data data s))).length *
          (pivotCats (grouped_year_flow (filtered_data data s))).length ∧
      (∀ y, y ∈ pivotYears (grouped_year_flow (filtered_data data s)) ↔
        ∃ r ∈ filtered_data data s, ∃ c, yearFlowKey r = some (y, c)) ∧
      (∀ c, c ∈ pivotCats (grouped_year_flow (filtered_data data s)) ↔
        ∃ r ∈ filtered_data data s, ∃ y, yearFlowKey r = some (y, c)) ∧
      (∀ p ∈ pivot_data (grouped_year_flow (filtered_data data s)),
        (∀ r ∈ filtered_data data s, yearFlowKey r ≠ some p.1) →
          p.2 = 0)) ∧
    ((pivot_data (grouped_year_sector (filtered_data data s))).length
        = (pivotYears (grouped_year_sector (filtered_data data s))).length *
          (pivotCats (grouped_year_sector (filtered_data data s))).length ∧
      (∀ y, y ∈ pivotYears (grouped_year_sector (filtered_data data s)) ↔
        ∃ r ∈ filtered_data data s, ∃ c, yearSectorKey r = some (y, c)) ∧
      (∀ c, c ∈ pivotCats (grouped_year_sector (filtered_data data s)) ↔
        ∃ r ∈ filtered_data data s, ∃ y, yearSectorKey r = some (y, c)) ∧
      (∀ p ∈ pivot_data (grouped_year_sector (filtered_data data s)),
        (∀ r ∈ filtered_data data s, yearSectorKey r ≠ some p.1) →
          p.2 = 0)) := by
  simp only [grouped_year_flow, grouped_year_sector]
  refine ⟨⟨pivot_data_length _, fun y => mem_pivotYears,
      fun c => mem_pivotCats, ?_⟩,
    ⟨pivot_data_length _, fun y => mem_pivotYears,
      fun c => mem_pivotCats, ?_⟩⟩ <;>
  · intro p hp hnone
    rw [pivot_data] at hp
    rcases List.mem_flatMap.mp hp with ⟨y, _, hpc⟩
    rcases List.mem_map.mp hpc with ⟨c, _, hrfl⟩
    subst hrfl
    exact pivotCell_of_not_observed hnone

/-- A second fully populated sample row, in year 2011 with aid type
Loan. -/
def loanRow : Row :=
  { spentCommitted := some "Spent", donor := some "New Zealand",
    recipient := some "Samoa", lowySector := some "Education",
    flowType := some "Loan", projectTitle := some "Q",
    expectedstartdate := none, completiondate := none,
    finalTransactionDate := some { year := 2011, month := 3, day := 4 },
    usdConstantTransactionValue := 7 }

/-- Witness for C2: in the two-row view observing (2010, Grant) and
(2011, Loan), the zero-filled cell at the non-observed combination
(2010, Loan) is exactly 0. -/
theorem pivot_zero_fill_witness :
    pivotCell (grouped_year_flow
      (filtered_data [fullRow, loanRow] openSpec)) 2010 "Loan" = 0 :=
  (pivot_zero_fill [fullRow, loanRow] openSpec).1.2.2.2
    ((2010, "Loan"), pivotCell (grouped_year_flow
      (filtered_data [fullRow, loanRow] openSpec)) 2010 "Loan")
    (by
      rw [pivot_data]
      exact List.mem_flatMap.mpr ⟨2010, by decide,
        List.mem_map.mpr ⟨"Loan", by decide, rfl⟩⟩)
    (by decide)

/-- C6 (amended): when the four multiselects are empty and the year
range covers the year of every dated row, the filtered view equals the
table restricted by transaction type AND by possession of a parseable
final transaction date.  (The transaction-type-only form fails: a row
whose final transaction date is missing is excluded by the always-active
year filter, see the counterexample.) -/
theorem open_filters_type_only (data : List Row) (s : FilterSpec)
    (hd : s.donors = []) (hr : s.recipients = []) (hsec : s.sectors = [])
    (ha : s.aidTypes = [])
    (hyear : ∀ r ∈ data, ∀ d, r.finalTransactionDate = some d →
      s.yearLo ≤ d.year ∧ d.year ≤ s.yearHi) :
    filtered_data data s
      = data.filter (fun r => passesTransactionType s r &&
          r.finalTransactionDate.isSome) := by
  apply List.filter_congr
  intro r hmem
  rw [rowPasses, hd, hr, hsec, ha]
  cases hdt : r.finalTransactionDate with
  | none =>
    simp [passesMultiselect, passesYearRange, hdt]
  | some d =>
    have hy := hyear r hmem d hdt
    simp [passesMultiselect, passesYearRange, hdt, hy.1, hy.2]

/-- The spec whose year range is the full observed span (2010 alone) of
the two-row table `[fullRow, noDateRow]`. -/
def narrowSpec : FilterSpec :=
  { transactionType := "Spent", donors := [], recipients := [],
    sectors := [], aidTypes := [], yearLo := 2010, yearHi := 2010 }

/-- Counterexample to C6 as stated: on the table `[fullRow, noDateRow]`,
whose only observed transaction year is 2010, the all-open spec with
year range exactly 2010-2010 yields a filtered view that differs from
the transaction-type-only restriction — the dateless row matches the
transaction type but is dropped by the year filter. -/
theorem open_filters_type_only_cex :
    ((fullRow.finalTransactionDate.map Date.year = some 2010 ∧
        noDateRow.finalTransactionDate = none) ∧
      passesTransactionType narrowSpec noDateRow = true) ∧
    filtered_data [fullRow, noDateRow] narrowSpec
      ≠ List.filter (passesTransactionType narrowSpec)
          [fullRow, noDateRow] := by
  refine ⟨⟨⟨rfl, rfl⟩, rfl⟩, ?_⟩
  intro h
  have h1 : filtered_data [fullRow, noDateRow] narrowSpec = [fullRow] := by
    decide
  have h2 : List.filter (passesTransactionType narrowSpec)
      [fullRow, noDateRow] = [fullRow, noDateRow] := by decide
  rw [h1, h2] at h
  exact List.noConfusion (List.cons.inj h).2

/-- Witness for the amended C6 at the concrete two-row table. -/
theorem open_filters_type_only_witness :
    filtered_data [fullRow, noDateRow] openSpec
      = List.filter (fun r => passesTransactionType openSpec r &&
          r.finalTransactionDate.isSome) [fullRow, noDateRow] :=
  open_filters_type_only [fullRow, noDateRow] openSpec rfl rfl rfl rfl
    (by decide)

theorem passesMultiselect_mono {sel1 sel2 : List String}
    {cell : Option String}
    (h : sel2 = sel1 ∨ (sel2 ≠ [] ∧ (sel1 = [] ∨ sel2 ⊆ sel1)))
    (hp : passesMultiselect sel2 cell = true) :
    passesMultiselect sel1 cell = true := by
  rcases h with rfl | ⟨hne, h1⟩
  · exact hp
  rcases h1 with rfl | hsub
  · simp [passesMultiselect]
  · cases cell with
    | none =>
      simp only [passesMultiselect, Bool.or_false] at hp
      exact absurd (List.isEmpty_iff.mp hp) hne
    | some v =>
      simp only [passesMultiselect, Bool.or_eq_true] at hp ⊢
      rcases hp with hp | hp
      · exact absurd (List.isEmpty_iff.mp hp) hne
      · have hv : v ∈ sel2 := by simpa using hp
        have hv1 : v ∈ sel1 := hsub hv
        right
        simpa using hv1

theorem rowPasses_mono {s1 s2 : FilterSpec}
    (htype : s2.transactionType = s1.transactionType)
    (hdon : s2.donors = s1.donors ∨
      (s2.donors ≠ [] ∧ (s1.donors = [] ∨ s2.donors ⊆ s1.donors)))
    (hrec : s2.recipients = s1.recipients ∨
      (s2.recipients ≠ [] ∧
        (s1.recipients = [] ∨ s2.recipients ⊆ s1.recipients)))
    (hsec : s2.sectors = s1.sectors ∨
      (s2.sectors ≠ [] ∧ (s1.sectors = [] ∨ s2.sectors ⊆ s1.sectors)))
    (haid : s2.aidTypes = s1.aidTypes ∨
      (s2.aidTypes ≠ [] ∧ (s1.aidTypes = [] ∨ s2.aidTypes ⊆ s1.aidTypes)))
    (hylo : s1.yearLo ≤ s2.yearLo) (hyhi : s2.yearHi ≤ s1.yearHi)
    (r : Row) (hp : rowPasses s2 r = true) : rowPasses s1 r = true := by
  simp only [rowPasses, Bool.and_eq_true] at hp ⊢
  obtain ⟨⟨⟨⟨⟨ht, hd⟩, hr'⟩, hs'⟩, ha'⟩, hy⟩ := hp
  refine ⟨⟨⟨⟨⟨?_, passesMultiselect_mono hdon hd⟩,
    passesMultiselect_mono hrec hr'⟩, passesMultiselect_mono hsec hs'⟩,
    passesMultiselect_mono haid ha'⟩, ?_⟩
  · rw [passesTransactionType] at ht ⊢
    rw [← htype]
    exact ht
  · rw [passesYearRange] at hy ⊢
    cases hdt : r.finalTransactionDate with
    | none => rw [hdt] at hy; exact Bool.noConfusion hy
    | some d =>
      rw [hdt] at hy
      simp only [Bool.and_eq_true, decide_eq_true_eq] at hy ⊢
      exact ⟨le_trans hylo hy.1, le_trans hy.2 hyhi⟩

/-- C4 (amended): narrowing any combination of filter fields (each
multiselect equal, or narrowed to a non-empty subset; the year range
contained in the old one; same transaction type) never increases the
total summed value of the filtered view, PROVIDED every transaction
value in the table is non-negative.  With a negative-value (reversal)
row the total can strictly increase when the row is filtered away, see
the counterexample. -/
theorem filtered_total_mono (data : List Row) (s1 s2 : FilterSpec)
    (htype : s2.transactionType = s1.transactionType)
    (hdon : s2.donors = s1.donors ∨
      (s2.donors ≠ [] ∧ (s1.donors = [] ∨ s2.donors ⊆ s1.donors)))
    (hrec : s2.recipients = s1.recipients ∨
      (s2.recipients ≠ [] ∧
        (s1.recipients = [] ∨ s2.recipients ⊆ s1.recipients)))
    (hsec : s2.sectors = s1.sectors ∨
      (s2.sectors ≠ [] ∧ (s1.sectors = [] ∨ s2.sectors ⊆ s1.sectors)))
    (haid : s2.aidTypes = s1.aidTypes ∨
      (s2.aidTypes ≠ [] ∧ (s1.aidTypes = [] ∨ s2.aidTypes ⊆ s1.aidTypes)))
    (hylo : s1.yearLo ≤ s2.yearLo) (hyhi : s2.yearHi ≤ s1.yearHi)
    (hnonneg : ∀ r ∈ data, 0 ≤ r.usdConstantTransactionValue) :
    valueSum (filtered_data data s2) ≤ valueSum (filtered_data data s1) := by
  have hsub : (filtered_data data s2).Sublist (filtered_data data s1) :=
    List.monotone_filter_right data
      (fun r h => rowPasses_mono htype hdon hrec hsec haid hylo hyhi r h)
  rw [valueSum, valueSum]
  apply List.Sublist.sum_le_sum (hsub.map _)
  intro a ha
  rcases List.mem_map.mp ha with ⟨r, hrm, hra⟩
  rw [← hra]
  exact hnonneg r (List.mem_of_mem_filter hrm)

/-- A reversal row: fully populated but with value −5. -/
def negRow : Row :=
  { spentCommitted := some "Spent", donor := some "Australia",
    recipient := some "Fiji", lowySector := some "Health",
    flowType := some "Grant", projectTitle := some "P",
    expectedstartdate := none, completiondate := none,
    finalTransactionDate := some { year := 2010, month := 6, day := 15 },
    usdConstantTransactionValue := -5 }

/-- The open spec restricted to two donors. -/
def wideDonorSpec : FilterSpec :=
  { transactionType := "Spent", donors := ["Australia", "France"],
    recipients := [], sectors := [], aidTypes := [],
    yearLo := 2008, yearHi := 2021 }

/-- `wideDonorSpec` narrowed in the donor field only, to a non-empty
subset. -/
def narrowDonorSpec : FilterSpec :=
  { transactionType := "Spent", donors := ["France"],
    recipients := [], sectors := [], aidTypes := [],
    yearLo := 2008, yearHi := 2021 }

/-- Counterexample to C4 as stated: narrowing the donor multiselect from
the non-empty {Australia, France} to its non-empty subset {France}
filters away the value −5 reversal row and strictly increases the total
of the view (from −5 to 0). -/
theorem filtered_total_mono_cex :
    narrowDonorSpec.donors ≠ [] ∧
    narrowDonorSpec.donors ⊆ wideDonorSpec.donors ∧
    ¬ (valueSum (filtered_data [negRow] narrowDonorSpec)
        ≤ valueSum (filtered_data [negRow] wideDonorSpec)) := by
  refine ⟨by decide, by decide, ?_⟩
  have h1 : filtered_data [negRow] wideDonorSpec = [negRow] := rfl
  have h2 : filtered_data [negRow] narrowDonorSpec = [] := rfl
  rw [h1, h2]
  intro h
  rw [valueSum, valueSum] at h
  norm_num [negRow] at h

/-- Witness for the amended C4 on a non-negative one-row table with the
same donor narrowing. -/
theorem filtered_total_mono_witness :
    valueSum (filtered_data [fullRow] narrowDonorSpec)
      ≤ valueSum (filtered_data [fullRow] wideDonorSpec) :=
  filtered_total_mono [fullRow] wideDonorSpec narrowDonorSpec rfl
    (Or.inr ⟨by decide, Or.inr (by decide)⟩) (Or.inl rfl) (Or.inl rfl)
    (Or.inl rfl) (by decide) (by decide)
    (fun r hr => by
      have : r = fullRow := by simpa using hr
      rw [this]
      norm_num [fullRow])

theorem truncRat_of_nonneg {q : ℚ} (h : 0 ≤ q) : truncRat q = ⌊q⌋ := by
  rw [truncRat, Rat.floor_def]
  exact Int.tdiv_eq_ediv (Rat.num_nonneg.mpr h) (Int.ofNat_nonneg q.den)

theorem truncRat_of_neg {q : ℚ} (h : q < 0) : truncRat q = ⌈q⌉ := by
  have hnum : (-q).num = -q.num := rfl
  have hden : (-q).den = q.den := rfl
  have h1 : truncRat (-q) = ⌊-q⌋ := truncRat_of_nonneg (by linarith)
  rw [truncRat, hnum, hden, Int.neg_tdiv] at h1
  have h2 : ⌈q⌉ = -⌊-q⌋ := by
    rw [← Int.ceil_neg, neg_neg]
  rw [h2, ← h1, neg_neg, truncRat]

/-- C10: in the Donor, Recipient and Project tables the displayed Value
column is the truncation toward zero of the untruncated rational group
sum (floor for non-negative sums, ceiling for negative ones), and the
truncation is applied to the list AFTER the descending sort, which is
performed on the untruncated sums. -/
theorem totals_truncated_after_sort (data : List Row) (s : FilterSpec) :
    donor_total (filtered_data data s)
      = (donor_total_q (filtered_data data s)).map
          (fun p => (p.1, truncRat p.2)) ∧
    (donor_total_q (filtered_data data s)).Pairwise valueDescRel ∧
    (∀ p ∈ donor_total_q (filtered_data data s),
      p.2 = valueSum (groupRows (fun r => r.donor) p.1
        (filtered_data data s))) ∧
    recipient_total (filtered_data data s)
      = (recipient_total_q (filtered_data data s)).map
          (fun p => (p.1, truncRat p.2)) ∧
    (recipient_total_q (filtered_data data s)).Pairwise valueDescRel ∧
    (∀ p ∈ recipient_total_q (filtered_data data s),
      p.2 = valueSum (groupRows (fun r => r.recipient) p.1
        (filtered_data data s))) ∧
    project_rollup (filtered_data data s)
      = (project_rollup_q (filtered_data data s)).map (fun p =>
          (p.title, p.donor, p.recipient, p.startYear, p.completionYear,
            truncRat p.value)) ∧
    (project_rollup_q (filtered_data data s)).Pairwise projDescRel ∧
    (∀ q : ℚ, (0 ≤ q → truncRat q = ⌊q⌋) ∧ (q < 0 → truncRat q = ⌈q⌉)) := by
  refine ⟨rfl, List.sorted_insertionSort _ _, ?_, rfl,
    List.sorted_insertionSort _ _, ?_, rfl, List.sorted_insertionSort _ _,
    fun q => ⟨fun h => truncRat_of_nonneg h, fun h => truncRat_of_neg h⟩⟩
  · intro p hp
    have hg : p ∈ donor_grouped (filtered_data data s) :=
      (List.perm_insertionSort valueDescRel _).mem_iff.mp hp
    exact (mem_groupedSum hg).1
  · intro p hp
    have hg : p ∈ recipient_grouped (filtered_data data s) :=
      (List.perm_insertionSort valueDescRel _).mem_iff.mp hp
    exact (mem_groupedSum hg).1

/-- Witness for C10: the truncation characterization at ±7/2, and the
donor-table entry equation at a concrete one-row view. -/
theorem totals_truncated_after_sort_witness :
    truncRat (7 / 2 : ℚ) = ⌊(7 / 2 : ℚ)⌋ ∧
    truncRat (-7 / 2 : ℚ) = ⌈(-7 / 2 : ℚ)⌉ ∧
    ("Australia", valueSum (groupRows (fun r => r.donor) "Australia"
        (filtered_data [fullRow] openSpec))).2
      = valueSum (groupRows (fun r => r.donor) "Australia"
          (filtered_data [fullRow] openSpec)) :=
  ⟨(((totals_truncated_after_sort [] openSpec).2.2.2.2.2.2.2.2
      (7 / 2)).1 (by norm_num)),
   (((totals_truncated_after_sort [] openSpec).2.2.2.2.2.2.2.2
      (-7 / 2)).2 (by norm_num)),
   ((totals_truncated_after_sort [fullRow] openSpec).2.2.1
      ("Australia", valueSum (groupRows (fun r => r.donor) "Australia"
        (filtered_data [fullRow] openSpec)))
      (List.mem_cons_self _ _))⟩

/-- C7 (amended): the Donor and Recipient tables are group-by-key sums
sorted in descending order of total value: each table is a permutation
of the corresponding `groupby(...).sum()` result, its value column is
non-increasing, and each entry's value is the sum over the rows of the
view carrying its key.  No relative order of groups with EQUAL totals
is asserted: `sort_values` uses the default quicksort, which pandas
documents as not stable, so the script guarantees no tie order — in
particular not the original encounter order of the group keys (the
group-by step has already re-sorted the keys; see the
counterexample). -/
theorem donor_recipient_sorted_ties (data : List Row) (s : FilterSpec) :
    ((donor_total_q (filtered_data data s)).Perm
        (donor_grouped (filtered_data data s)) ∧
      (donor_total_q (filtered_data data s)).Pairwise
        (fun a b => b.2 ≤ a.2) ∧
      ∀ p ∈ donor_total_q (filtered_data data s),
        p.2 = valueSum (groupRows (fun r => r.donor) p.1
          (filtered_data data s))) ∧
    ((recipient_total_q (filtered_data data s)).Perm
        (recipient_grouped (filtered_data data s)) ∧
      (recipient_total_q (filtered_data data s)).Pairwise
        (fun a b => b.2 ≤ a.2) ∧
      ∀ p ∈ recipient_total_q (filtered_data data s),
        p.2 = valueSum (groupRows (fun r => r.recipient) p.1
          (filtered_data data s))) := by
  refine ⟨⟨List.perm_insertionSort valueDescRel _,
      List.sorted_insertionSort valueDescRel _, ?_⟩,
    ⟨List.perm_insertionSort valueDescRel _,
      List.sorted_insertionSort valueDescRel _, ?_⟩⟩
  · intro p hp
    exact (mem_groupedSum
      ((List.perm_insertionSort valueDescRel _).mem_iff.mp hp)).1
  · intro p hp
    exact (mem_groupedSum
      ((List.perm_insertionSort valueDescRel _).mem_iff.mp hp)).1

/-- A sample row whose donor is named `B`, encountered first. -/
def donorBRow : Row :=
  { spentCommitted := some "Spent", donor := some "B",
    recipient := some "Fiji", lowySector := some "Health",
    flowType := some "Grant", projectTitle := some "P",
    expectedstartdate := none, completiondate := none,
    finalTransactionDate := some { year := 2010, month := 6, day := 15 },
    usdConstantTransactionValue := 1 }

/-- A sample row whose donor is named `A`, encountered second. -/
def donorARow : Row :=
  { spentCommitted := some "Spent", donor := some "A",
    recipient := some "Fiji", lowySector := some "Health",
    flowType := some "Grant", projectTitle := some "P",
    expectedstartdate := none, completiondate := none,
    finalTransactionDate := some { year := 2010, month := 6, day := 15 },
    usdConstantTransactionValue := 1 }

/-- Counterexample to C7 as stated: donors are encountered in the order
B, A; their totals tie at 1; yet the Donor table lists A before B —
groupby has already re-sorted the keys alphabetically, and on this
two-group all-tied input the value sort performs no exchange — so
equal-total groups do NOT appear in original encounter order. -/
theorem donor_recipient_sorted_ties_cex :
    (filtered_data [donorBRow, donorARow] openSpec).filterMap Row.donor
      = ["B", "A"] ∧
    (donor_total_q (filtered_data [donorBRow, donorARow] openSpec)).map
      Prod.snd = [1, 1] ∧
    (donor_total_q (filtered_data [donorBRow, donorARow] openSpec)).map
      Prod.fst = ["A", "B"] := by
  have hA : valueSum [donorARow] = 1 := by
    simp [valueSum, donorARow]
  have hB : valueSum [donorBRow] = 1 := by
    simp [valueSum, donorBRow]
  have hg : donor_grouped (filtered_data [donorBRow, donorARow] openSpec)
      = [("A", valueSum [donorARow]), ("B", valueSum [donorBRow])] := rfl
  have hg' : donor_grouped (filtered_data [donorBRow, donorARow] openSpec)
      = [("A", 1), ("B", 1)] := by rw [hg, hA, hB]
  have ht : donor_total_q (filtered_data [donorBRow, donorARow] openSpec)
      = [("A", 1), ("B", 1)] := by
    rw [donor_total_q, hg']
    decide
  refine ⟨by decide, ?_, ?_⟩ <;> rw [ht] <;> decide

/-- Witness for the amended C7: the donor-table entry equation applied
at the singleton view of `fullRow`. -/
theorem donor_recipient_sorted_ties_witness :
    ("Australia", valueSum (groupRows (fun r => r.donor) "Australia"
        (filtered_data [fullRow] openSpec))).2
      = valueSum (groupRows (fun r => r.donor) "Australia"
          (filtered_data [fullRow] openSpec)) :=
  (donor_recipient_sorted_ties [fullRow] openSpec).1.2.2 _
    (List.mem_cons_self _ _)

/-- First transaction of project P: value 30, dated like its sibling. -/
def projRow30 : Row :=
  { spentCommitted := some "Spent", donor := some "D",
    recipient := some "R", lowySector := some "Health",
    flowType := some "Grant", projectTitle := some "P",
    expectedstartdate := some { year := 2009, month := 1, day := 2 },
    completiondate := some { year := 2012, month := 5, day := 6 },
    finalTransactionDate := some { year := 2010, month := 6, day := 15 },
    usdConstantTransactionValue := 30 }

/-- Second transaction of project P: value 70, same key and dates. -/
def projRow70 : Row :=
  { spentCommitted := some "Spent", donor := some "D",
    recipient := some "R", lowySector := some "Health",
    flowType := some "Grant", projectTitle := some "P",
    expectedstartdate := some { year := 2009, month := 1, day := 2 },
    completiondate := some { year := 2012, month := 5, day := 6 },
    finalTransactionDate := some { year := 2011, month := 6, day := 15 },
    usdConstantTransactionValue := 70 }

/-- C8 (amended): the Project rollup groups rows by the composite key
(project title, donor, recipient); per group it reports the summed
value and, for each date column separately, the year of the FIRST
NON-MISSING date in the group (pandas `agg("first")` skips nulls —
these only come from one representative row when the group's dates are
homogeneous); it is sorted descending by summed value.  In particular
two rows sharing the key with values 30 and 70 and identical dates
produce the single rollup row (P, D, R, 2009, 2012, 100). -/
theorem project_rollup_spec (data : List Row) (s : FilterSpec) :
    ((project_rollup_q (filtered_data data s)).Pairwise
        (fun a b => b.value ≤ a.value) ∧
      ∀ e ∈ project_rollup_q (filtered_data data s),
        e.value = valueSum (groupRows projectKey
          (e.title, e.donor, e.recipient) (filtered_data data s)) ∧
        (∃ r ∈ filtered_data data s,
          projectKey r = some (e.title, e.donor, e.recipient)) ∧
        e.startYear = ((groupRows projectKey
            (e.title, e.donor, e.recipient)
            (filtered_data data s)).filterMap
              Row.expectedstartdate).head?.map Date.year ∧
        e.completionYear = ((groupRows projectKey
            (e.title, e.donor, e.recipient)
            (filtered_data data s)).filterMap
              Row.completiondate).head?.map Date.year) ∧
    project_rollup (filtered_data [projRow30, projRow70] openSpec)
      = [("P", "D", "R", some 2009, some 2012, 100)] := by
  constructor
  · constructor
    · exact List.sorted_insertionSort projDescRel _
    · intro e he
      have hm : e ∈ (observedKeys key3Le projectKey
          (filtered_data data s)).map
            (mkProjectRow (filtered_data data s)) :=
        (List.perm_insertionSort projDescRel _).mem_iff.mp he
      rcases List.mem_map.mp hm with ⟨⟨t, d, c⟩, hk, hrfl⟩
      subst hrfl
      exact ⟨rfl,
        (mem_observedKeys key3Le projectKey
          (filtered_data data s) (t, d, c)).mp hk, rfl, rfl⟩
  · have hv : valueSum (groupRows projectKey ("P", "D", "R")
        (filtered_data [projRow30, projRow70] openSpec)) = 100 := by
      have hgr : groupRows projectKey ("P", "D", "R")
          (filtered_data [projRow30, projRow70] openSpec)
          = [projRow30, projRow70] := rfl
      rw [hgr]
      norm_num [valueSum, projRow30, projRow70]
    have hlist : project_rollup
        (filtered_data [projRow30, projRow70] openSpec)
        = [("P", "D", "R", some 2009, some 2012,
            truncRat (valueSum (groupRows projectKey ("P", "D", "R")
              (filtered_data [projRow30, projRow70] openSpec))))] := rfl
    rw [hlist, hv]
    have : truncRat 100 = 100 := by decide
    rw [this]

/-- A project-P row with no start date but a 2015 completion date. -/
def partialDateRow1 : Row :=
  { spentCommitted := some "Spent", donor := some "D",
    recipient := some "R", lowySector := some "Health",
    flowType := some "Grant", projectTitle := some "P",
    expectedstartdate := none,
    completiondate := some { year := 2015, month := 2, day := 3 },
    finalTransactionDate := some { year := 2010, month := 6, day := 15 },
    usdConstantTransactionValue := 1 }

/-- A project-P row with a 2010 start date but no completion date. -/
def partialDateRow2 : Row :=
  { spentCommitted := some "Spent", donor := some "D",
    recipient := some "R", lowySector := some "Health",
    flowType := some "Grant", projectTitle := some "P",
    expectedstartdate := some { year := 2010, month := 1, day := 1 },
    completiondate := none,
    finalTransactionDate := some { year := 2011, month := 6, day := 15 },
    usdConstantTransactionValue := 2 }

/-- Counterexample to C8 as stated: with heterogeneous null dates in one
group, the rollup row reports start year 2010 (first non-null start,
from the second row) and completion year 2015 (first non-null
completion, from the first row), a combination carried by NO single
representative row of the group. -/
theorem project_rollup_spec_cex :
    project_rollup (filtered_data [partialDateRow1, partialDateRow2]
        openSpec)
      = [("P", "D", "R", some 2010, some 2015, 3)] ∧
    ¬ ∃ r ∈ filtered_data [partialDateRow1, partialDateRow2] openSpec,
        r.expectedstartdate.map Date.year = some 2010 ∧
        r.completiondate.map Date.year = some 2015 := by
  constructor
  · have hv : valueSum (groupRows projectKey ("P", "D", "R")
        (filtered_data [partialDateRow1, partialDateRow2] openSpec))
        = 3 := by
      have hgr : groupRows projectKey ("P", "D", "R")
          (filtered_data [partialDateRow1, partialDateRow2] openSpec)
          = [partialDateRow1, partialDateRow2] := rfl
      rw [hgr]
      norm_num [valueSum, partialDateRow1, partialDateRow2]
    have hlist : project_rollup
        (filtered_data [partialDateRow1, partialDateRow2] openSpec)
        = [("P", "D", "R", some 2010, some 2015,
            truncRat (valueSum (groupRows projectKey ("P", "D", "R")
              (filtered_data [partialDateRow1, partialDateRow2]
                openSpec))))] := rfl
    rw [hlist, hv]
    have : truncRat 3 = 3 := by decide
    rw [this]
  · decide

/-- Witness for the amended C8: the per-entry contract applied at the
one-group view of the 30/70 example. -/
theorem project_rollup_spec_witness :
    mkProjectRow (filtered_data [projRow30, projRow70] openSpec)
        ("P", "D", "R") ∈ project_rollup_q
          (filtered_data [projRow30, projRow70] openSpec) ∧
    (mkProjectRow (filtered_data [projRow30, projRow70] openSpec)
        ("P", "D", "R")).value
      = valueSum (groupRows projectKey ("P", "D", "R")
          (filtered_data [projRow30, projRow70] openSpec)) := by
  have hmem : mkProjectRow (filtered_data [projRow30, projRow70] openSpec)
      ("P", "D", "R") ∈ project_rollup_q
        (filtered_data [projRow30, projRow70] openSpec) :=
    List.mem_cons_self _ _
  exact ⟨hmem, ((project_rollup_spec [projRow30, projRow70]
    openSpec).1.2 _ hmem).1⟩
